import Mathlib

/-!
Shallow embedding of the order-tracking routes of the repository:

* `src/app/routes/app.orders.jsx` — the order fulfillment classifier
  `getOrderFulfillmentStatus`, the orders `loader` (GraphQL error handling,
  status counting, percentage arithmetic), and the profile-form `action`
  (validation and persistence decision).
* `src/unnamed/part_000` — the `truncate` helper of the QR-code table.

JavaScript conventions are modelled explicitly: a possibly-missing string
field is `Option String`, the `a || b` fallback treats both `null`/
`undefined` and the empty string as falsy, `Number.parseInt(s, 10)`
returning `NaN` is `none`, and the IEEE-double percentage arithmetic is
modelled over `ℚ` (exact rationals), with `Math.round x = ⌊x + 1/2⌋`.
-/

namespace OrderTracking

/-- A fulfillment sub-record of an order: two independently optional
string fields, mirroring the GraphQL selection `fulfillments { status
displayStatus }`. -/
structure Fulfillment where
  status : Option String
  displayStatus : Option String
deriving Repr, DecidableEq

/-- An order as the classifier consumes it: the `fulfillments` field may
itself be absent (`order.fulfillments || []` in the source). -/
structure Order where
  fulfillments : Option (List Fulfillment)
deriving Repr, DecidableEq

/-- JavaScript `a || b` on optional strings: `a` wins unless it is
`null`/`undefined` (here `none`) or the empty string, which are falsy. -/
def jsOr (a b : Option String) : Option String :=
  match a with
  | some s => if s = "" then b else some s
  | none => b

/-- `fulfillment.displayStatus || fulfillment.status` — the effective
status used uniformly by the classifier. -/
def effectiveStatus (f : Fulfillment) : Option String :=
  jsOr f.displayStatus f.status

/-- The `for (const fulfillment of fulfillments)` loop of
`getOrderFulfillmentStatus`: early `return` becomes `some label`, falling
off the end of the loop becomes `none`.  Within one fulfillment the checks
run in the order DELIVERED, FULFILLED, IN_TRANSIT. -/
def primaryScan : List Fulfillment → Option String
  | [] => none
  | f :: rest =>
    let displayStatus := effectiveStatus f
    if displayStatus = some "DELIVERED" then some "DELIVERED"
    else if displayStatus = some "FULFILLED" then some "FULFILLED"
    else if displayStatus = some "IN_TRANSIT" then some "IN_TRANSIT"
    else primaryScan rest

/-- `getOrderFulfillmentStatus` from `src/app/routes/app.orders.jsx`
(lines 12–47): empty fulfillment list yields NOT_DELIVERED; otherwise the
primary loop; otherwise the `hasFulfilled` re-scan; otherwise
NOT_DELIVERED. -/
def getOrderFulfillmentStatus (order : Order) : String :=
  let fulfillments := order.fulfillments.getD []
  if fulfillments.length = 0 then "NOT_DELIVERED"
  else
    match primaryScan fulfillments with
    | some s => s
    | none =>
      let hasFulfilled :=
        fulfillments.any fun f => effectiveStatus f = some "FULFILLED"
      if hasFulfilled then "FULFILLED" else "NOT_DELIVERED"

/-- A fulfillment whose effective status is one of the three target
values of the primary loop. -/
def matchesTarget (f : Fulfillment) : Bool :=
  decide (effectiveStatus f = some "DELIVERED") ||
    decide (effectiveStatus f = some "FULFILLED") ||
    decide (effectiveStatus f = some "IN_TRANSIT")

/-- Variant following the spec sentence without the secondary scan: steps
1, 2 and 4 of §4.1 only, the `hasFulfilled` re-scan omitted.  Used to
state that the re-scan never changes the result. -/
def getOrderFulfillmentStatusNoRescan (order : Order) : String :=
  let fulfillments := order.fulfillments.getD []
  if fulfillments.length = 0 then "NOT_DELIVERED"
  else
    match primaryScan fulfillments with
    | some s => s
    | none => "NOT_DELIVERED"

/-! ## The orders loader: counting, percentages, error handling -/

/-- The `statusCounts` object initialised at lines 95–100 of the loader:
four integer buckets. -/
structure StatusCounts where
  DELIVERED : Nat
  NOT_DELIVERED : Nat
  FULFILLED : Nat
  IN_TRANSIT : Nat
deriving Repr, DecidableEq

/-- One iteration of the counting loop (lines 103–108): classify the
order and bump the matching bucket; `hasOwnProperty` guards against a
label outside the four buckets, in which case nothing is counted. -/
def countStep (sc : StatusCounts) (order : Order) : StatusCounts :=
  let status := getOrderFulfillmentStatus order
  if status = "DELIVERED" then { sc with DELIVERED := sc.DELIVERED + 1 }
  else if status = "NOT_DELIVERED" then
    { sc with NOT_DELIVERED := sc.NOT_DELIVERED + 1 }
  else if status = "FULFILLED" then { sc with FULFILLED := sc.FULFILLED + 1 }
  else if status = "IN_TRANSIT" then
    { sc with IN_TRANSIT := sc.IN_TRANSIT + 1 }
  else sc

/-- The full counting loop over the fetched orders. -/
def countStatuses (orders : List Order) : StatusCounts :=
  orders.foldl countStep ⟨0, 0, 0, 0⟩

/-- `deliveredCount` (line 111). -/
def deliveredCount (orders : List Order) : Nat :=
  (countStatuses orders).DELIVERED

/-- `notDeliveredCount` (lines 112–115). -/
def notDeliveredCount (orders : List Order) : Nat :=
  (countStatuses orders).NOT_DELIVERED + (countStatuses orders).FULFILLED +
    (countStatuses orders).IN_TRANSIT

/-- JavaScript `Math.round`: round half toward positive infinity,
modelled over exact rationals. -/
def jsRound (x : ℚ) : ℤ := ⌊x + 1 / 2⌋

/-- The percentage expression repeated throughout lines 118–147:
`totalOrders > 0 ? Math.round((count / totalOrders) * 100 * 100) / 100 : 0`. -/
def pct (count total : Nat) : ℚ :=
  if 0 < total then
    (jsRound ((count : ℚ) / (total : ℚ) * 100 * 100) : ℚ) / 100
  else 0

/-- The `percentageByStatus` object (lines 128–147). -/
structure StatusPercentages where
  DELIVERED : ℚ
  NOT_DELIVERED : ℚ
  FULFILLED : ℚ
  IN_TRANSIT : ℚ
deriving Repr, DecidableEq

/-- The `percentages` field of the loader result (lines 152–156). -/
structure Percentages where
  delivered : ℚ
  notDelivered : ℚ
  byStatus : StatusPercentages
deriving Repr, DecidableEq

/-- A GraphQL error entry: its `message` field is optional
(`error.message?.includes(...)`). -/
structure GraphQLError where
  message : Option String
deriving Repr, DecidableEq

/-- The parsed fetch response.  `errors` mirrors `json.errors`; `data`
collapses the optional chain `json.data?.orders?.edges` (with the
`.map((edge) => edge.node)` projection applied) into one optional list:
when any link of the chain is absent the loader falls back to `[]`
via `?? []`. -/
structure OrdersJson where
  errors : Option (List GraphQLError)
  data : Option (List Order)
deriving Repr, DecidableEq

/-- What the awaited fetch did: produced a parsed response, or threw an
error carrying a message. -/
inductive FetchOutcome where
  | response (json : OrdersJson)
  | thrown (message : String)
deriving Repr, DecidableEq

/-- Containment of one character list in another: some tail of the
haystack starts with the pattern. -/
def listContains (haystack pat : List Char) : Bool :=
  match haystack with
  | [] => pat.isEmpty
  | _ :: rest => pat.isPrefixOf haystack || listContains rest pat

/-- JavaScript `s.includes(pat)`. -/
def includesJS (s pat : String) : Bool :=
  listContains s.toList pat.toList

/-- The three permission substrings tested at lines 76–81 and 160–164,
via JavaScript `String.prototype.includes`. -/
def permissionHint (m : String) : Bool :=
  includesJS m "Access denied" || includesJS m "not approved" ||
    includesJS m "Order object"

/-- The remediation copy returned with the `access_denied` result. -/
def accessDeniedMessage : String :=
  "This app needs to be reinstalled to access orders. Please uninstall and reinstall the app to grant order permissions."

/-- The three possible loader outcomes: the `access_denied` object, the
success object (whose `error` field is `null`), or a re-thrown error. -/
inductive LoaderResult where
  | accessDenied (message : String)
  | success (totalOrders : Nat) (statusCounts : StatusCounts)
      (percentages : Percentages)
  | rethrown (message : String)
deriving Repr, DecidableEq

/-- Lines 92–158 of the loader: count the orders and build the success
object with all six percentages. -/
def aggregate (orders : List Order) : LoaderResult :=
  let statusCounts := countStatuses orders
  let totalOrders := orders.length
  .success totalOrders statusCounts
    { delivered := pct (deliveredCount orders) totalOrders
      notDelivered := pct (notDeliveredCount orders) totalOrders
      byStatus :=
        { DELIVERED := pct statusCounts.DELIVERED totalOrders
          NOT_DELIVERED := pct statusCounts.NOT_DELIVERED totalOrders
          FULFILLED := pct statusCounts.FULFILLED totalOrders
          IN_TRANSIT := pct statusCounts.IN_TRANSIT totalOrders } }

/-- Whether a GraphQL error entry carries a permission hint
(`error.message?.includes(...)`: an absent message is falsy). -/
def errorHasPermissionHint (e : GraphQLError) : Bool :=
  match e.message with
  | some m => permissionHint m
  | none => false

/-- The orders `loader` (lines 49–173) after `await response.json()`:
a structured error list with a permission hint short-circuits to
`access_denied`; otherwise aggregation proceeds on whatever data is
present; a thrown error is converted to `access_denied` when its message
carries a permission hint and re-thrown unchanged otherwise. -/
def ordersLoader (outcome : FetchOutcome) : LoaderResult :=
  match outcome with
  | .response json =>
    match json.errors with
    | some errs =>
      if errs.any errorHasPermissionHint then
        .accessDenied accessDeniedMessage
      else aggregate (json.data.getD [])
    | none => aggregate (json.data.getD [])
  | .thrown m =>
    if permissionHint m then .accessDenied accessDeniedMessage
    else .rethrown m

/-! ## The profile-form action -/

/-- `String.prototype.trim()` modelled over the character list: drop
whitespace from both ends. -/
def trimJS (s : String) : String :=
  String.mk
    (((s.toList.dropWhile Char.isWhitespace).reverse.dropWhile
        Char.isWhitespace).reverse)

/-- `sanitizeText`: `value?.toString().trim() || ""` — an absent field
becomes the empty string, a present one is trimmed (the trailing `|| ""`
only replaces an empty trim result with itself). -/
def sanitizeText (value : Option String) : String :=
  match value with
  | none => ""
  | some s => trimJS s

/-- Leading decimal digits of a character list. -/
def leadingDigits (cs : List Char) : List Char :=
  cs.takeWhile Char.isDigit

/-- Numeric value of a digit list. -/
def digitsToNat (cs : List Char) : Nat :=
  cs.foldl (fun acc c => acc * 10 + (c.toNat - 48)) 0

/-- `Number.parseInt(s, 10)` on an already-trimmed string: an optional
single sign, then as many decimal digits as possible (any trailing
garbage ignored); `none` models `NaN` (no digits at all). -/
def parseIntJS (s : String) : Option Int :=
  match s.toList with
  | '-' :: rest =>
    let ds := leadingDigits rest
    if ds.isEmpty then none else some (-(digitsToNat ds : Int))
  | '+' :: rest =>
    let ds := leadingDigits rest
    if ds.isEmpty then none else some ((digitsToNat ds : Int))
  | cs =>
    let ds := leadingDigits cs
    if ds.isEmpty then none else some ((digitsToNat ds : Int))

/-- The `errors` object built by the action: each key is present exactly
when its rule is violated. -/
structure ProfileErrors where
  name : Option String
  age : Option String
deriving Repr, DecidableEq

/-- The `values` object echoed back on validation failure: trimmed name
and the trimmed (unparsed) age string. -/
structure ProfileValues where
  name : String
  age : String
deriving Repr, DecidableEq

/-- The outcome of the action: the 400 response carrying errors and values
(no record persisted), or a persisted `Profile` record followed by the
redirect.  The age carried by `created` is the JavaScript number stored by
`prisma.profile.create` — `none` would be `NaN`, which validation rules
out. -/
inductive ActionResult where
  | validationFailure (errors : ProfileErrors) (values : ProfileValues)
  | created (name : String) (age : Option Int)
deriving Repr, DecidableEq

/-- The profile `action` (second route, lines 455–486): sanitize both
fields, parse the age, collect the violated rules, and either return
them with the values or persist and redirect. -/
def profileAction (nameField ageField : Option String) : ActionResult :=
  let name := sanitizeText nameField
  let ageValue := sanitizeText ageField
  let age := parseIntJS ageValue
  let nameError : Option String :=
    if name = "" then some "Name is required" else none
  let ageError : Option String :=
    if ageValue = "" then some "Age is required"
    else
      match age with
      | none => some "Age must be a valid non-negative number"
      | some a =>
        if a < 0 then some "Age must be a valid non-negative number"
        else none
  if nameError.isSome || ageError.isSome then
    .validationFailure ⟨nameError, ageError⟩ ⟨name, ageValue⟩
  else .created name age

/-! ## The `truncate` helper of the QR-code table -/

/-- `truncate` from `src/unnamed/part_000` (lines 11–14): falsy input
(absent or empty) yields `""`; a string longer than `length` is cut to
its first `length` characters with `"..."` appended; otherwise it is
returned unchanged.  The JavaScript default argument is made explicit. -/
def truncate (text : Option String) (length : Nat := 50) : String :=
  match text with
  | none => ""
  | some t =>
    if t = "" then ""
    else if length < t.length then String.mk (t.toList.take length) ++ "..."
    else t

/-! ## Spec-side definitions (for refinement comparisons) -/

/-- Modelled from the spec (§4.2): round to 2 decimal places with
round-half-up semantics. -/
def roundHalfUp2 (x : ℚ) : ℚ := (⌊x * 100 + 1 / 2⌋ : ℚ) / 100

/-- Sum of the four status buckets. -/
def StatusCounts.total (sc : StatusCounts) : Nat :=
  sc.DELIVERED + sc.NOT_DELIVERED + sc.FULFILLED + sc.IN_TRANSIT

/-! ## Unfolding lemmas -/

lemma primaryScan_cons (f : Fulfillment) (rest : List Fulfillment) :
    primaryScan (f :: rest) =
      if effectiveStatus f = some "DELIVERED" then some "DELIVERED"
      else if effectiveStatus f = some "FULFILLED" then some "FULFILLED"
      else if effectiveStatus f = some "IN_TRANSIT" then some "IN_TRANSIT"
      else primaryScan rest := rfl

lemma getOrderFulfillmentStatus_eq (o : Order) :
    getOrderFulfillmentStatus o =
      if (o.fulfillments.getD []).length = 0 then "NOT_DELIVERED"
      else
        match primaryScan (o.fulfillments.getD []) with
        | some s => s
        | none =>
          if (o.fulfillments.getD []).any
              (fun f => effectiveStatus f = some "FULFILLED") then
            "FULFILLED"
          else "NOT_DELIVERED" := rfl

lemma getOrderFulfillmentStatusNoRescan_eq (o : Order) :
    getOrderFulfillmentStatusNoRescan o =
      if (o.fulfillments.getD []).length = 0 then "NOT_DELIVERED"
      else
        match primaryScan (o.fulfillments.getD []) with
        | some s => s
        | none => "NOT_DELIVERED" := rfl

lemma ordersLoader_response (json : OrdersJson) :
    ordersLoader (.response json) =
      match json.errors with
      | some errs =>
        if errs.any errorHasPermissionHint then
          .accessDenied accessDeniedMessage
        else aggregate (json.data.getD [])
      | none => aggregate (json.data.getD []) := rfl

lemma ordersLoader_thrown (m : String) :
    ordersLoader (.thrown m) =
      if permissionHint m then .accessDenied accessDeniedMessage
      else .rethrown m := rfl

lemma truncate_some (t : String) (len : Nat) :
    truncate (some t) len =
      if t = "" then ""
      else if len < t.length then String.mk (t.toList.take len) ++ "..."
      else t := rfl

/-! ## Facts about the primary scan -/

lemma primaryScan_mem (l : List Fulfillment) (s : String)
    (h : primaryScan l = some s) :
    s = "DELIVERED" ∨ s = "FULFILLED" ∨ s = "IN_TRANSIT" := by
  induction l with
  | nil => simp [primaryScan] at h
  | cons a rest ih =>
    rw [primaryScan_cons] at h
    split_ifs at h with h1 h2 h3
    · exact Or.inl (Option.some_injective _ h).symm
    · exact Or.inr (Or.inl (Option.some_injective _ h).symm)
    · exact Or.inr (Or.inr (Option.some_injective _ h).symm)
    · exact ih h

lemma primaryScan_eq_none_iff (l : List Fulfillment) :
    primaryScan l = none ↔ ∀ f ∈ l, matchesTarget f = false := by
  induction l with
  | nil => simp [primaryScan]
  | cons a rest ih =>
    rw [primaryScan_cons]
    split_ifs with h1 h2 h3
    · simp [List.forall_mem_cons, matchesTarget, h1]
    · simp [List.forall_mem_cons, matchesTarget, h2]
    · simp [List.forall_mem_cons, matchesTarget, h3]
    · simp [List.forall_mem_cons, matchesTarget, h1, h2, h3, ih]

lemma primaryScan_of_find (l : List Fulfillment) (f : Fulfillment) (s : String)
    (hf : l.find? matchesTarget = some f) (hs : effectiveStatus f = some s) :
    primaryScan l = some s := by
  induction l with
  | nil => simp at hf
  | cons a rest ih =>
    rw [List.find?_cons] at hf
    rcases ha : matchesTarget a with _ | _
    · rw [ha] at hf
      have ha' := ha
      simp only [matchesTarget, Bool.or_eq_false_iff,
        decide_eq_false_iff_not] at ha'
      rw [primaryScan_cons, if_neg ha'.1.1, if_neg ha'.1.2, if_neg ha'.2]
      exact ih hf
    · rw [ha] at hf
      have hfa : f = a := (Option.some_injective _ hf).symm
      subst hfa
      simp only [matchesTarget, Bool.or_eq_true, decide_eq_true_eq] at ha
      rcases ha with (h | h) | h
      all_goals
        have hs' : s = _ := (Option.some_injective _ (h.symm.trans hs)).symm
        subst hs'
        simp [primaryScan_cons, h]

lemma status_mem (o : Order) :
    getOrderFulfillmentStatus o = "DELIVERED" ∨
      getOrderFulfillmentStatus o = "NOT_DELIVERED" ∨
      getOrderFulfillmentStatus o = "FULFILLED" ∨
      getOrderFulfillmentStatus o = "IN_TRANSIT" := by
  by_cases h0 : (o.fulfillments.getD []).length = 0
  · rw [getOrderFulfillmentStatus_eq, if_pos h0]
    simp
  · rw [getOrderFulfillmentStatus_eq, if_neg h0]
    cases hp : primaryScan (o.fulfillments.getD []) with
    | none =>
      by_cases ha :
          ((o.fulfillments.getD []).any
            (fun f => effectiveStatus f = some "FULFILLED")) = true
      · simp [ha]
      · simp [ha]
    | some s =>
      rcases primaryScan_mem _ _ hp with h | h | h <;> simp [h]

lemma any_fulfilled_eq_false_of_forall (l : List Fulfillment)
    (h : ∀ f ∈ l, matchesTarget f = false) :
    (l.any fun f => effectiveStatus f = some "FULFILLED") = false := by
  rw [List.any_eq_false]
  intro f hf
  have hm := h f hf
  simp only [matchesTarget, Bool.or_eq_false_iff,
    decide_eq_false_iff_not] at hm
  simp [hm.1.2]

/-! ## Facts about counting -/

lemma countStep_total (sc : StatusCounts) (o : Order) :
    (countStep sc o).total = sc.total + 1 := by
  rcases status_mem o with h | h | h | h <;>
    simp [countStep, h, StatusCounts.total] <;> omega

lemma foldl_countStep_total (orders : List Order) (sc : StatusCounts) :
    (orders.foldl countStep sc).total = sc.total + orders.length := by
  induction orders generalizing sc with
  | nil => simp
  | cons o rest ih =>
    rw [List.foldl_cons, ih, countStep_total, List.length_cons]
    omega

lemma countStatuses_total (orders : List Order) :
    (countStatuses orders).total = orders.length := by
  rw [countStatuses, foldl_countStep_total]
  simp [StatusCounts.total]

/-! ## Facts about rounding -/

lemma jsRound_eq_of (x : ℚ) (z : ℤ) (h1 : (z : ℚ) ≤ x + 1 / 2)
    (h2 : x + 1 / 2 < z + 1) : jsRound x = z := by
  rw [jsRound]
  exact Int.floor_eq_iff.mpr ⟨h1, h2⟩

lemma pct_eval (c t : Nat) (z : ℤ) (ht : 0 < t)
    (h1 : (z : ℚ) ≤ (c : ℚ) / (t : ℚ) * 100 * 100 + 1 / 2)
    (h2 : (c : ℚ) / (t : ℚ) * 100 * 100 + 1 / 2 < z + 1) :
    pct c t = (z : ℚ) / 100 := by
  rw [pct, if_pos ht, jsRound_eq_of _ z h1 h2]

/-! ## Claim theorems -/

/-- C1: whenever some fulfillment of an order has an effective status in
the set DELIVERED, FULFILLED, IN_TRANSIT, `getOrderFulfillmentStatus`
returns the effective status of the first such fulfillment in list order
(the three checks run inside each fulfillment before the loop advances);
in particular an order whose first fulfillment has displayStatus
DELIVERED classifies as DELIVERED whatever follows, and statuses
[IN_TRANSIT, FULFILLED] classify as IN_TRANSIT. -/
theorem first_matching_fulfillment_determines_status :
    (∀ (o : Order) (f : Fulfillment) (s : String),
        (o.fulfillments.getD []).find? matchesTarget = some f →
        effectiveStatus f = some s →
        getOrderFulfillmentStatus o = s) ∧
    (∀ (st : Option String) (rest : List Fulfillment),
        getOrderFulfillmentStatus ⟨some (⟨st, some "DELIVERED"⟩ :: rest)⟩ =
          "DELIVERED") ∧
    getOrderFulfillmentStatus
        ⟨some [⟨some "IN_TRANSIT", none⟩, ⟨some "FULFILLED", none⟩]⟩ =
      "IN_TRANSIT" := by
  refine ⟨?_, ?_, by decide⟩
  · intro o f s hf hs
    have hne : o.fulfillments.getD [] ≠ [] := by
      intro h
      rw [h] at hf
      simp at hf
    have h0 : ¬(o.fulfillments.getD []).length = 0 := by
      simpa [List.length_eq_zero] using hne
    rw [getOrderFulfillmentStatus_eq, if_neg h0,
      primaryScan_of_find _ f s hf hs]
  · intro st rest
    have heff : effectiveStatus ⟨st, some "DELIVERED"⟩ = some "DELIVERED" := by
      simp [effectiveStatus, jsOr]
    rw [getOrderFulfillmentStatus_eq]
    simp [primaryScan_cons, heff]

/-- Witness for C1: a one-fulfillment order whose effective status is
FULFILLED (via displayStatus) classifies as FULFILLED. -/
theorem first_matching_fulfillment_determines_status_witness :
    ((⟨some [⟨some "X", some "FULFILLED"⟩]⟩ : Order).fulfillments.getD
        []).find? matchesTarget = some ⟨some "X", some "FULFILLED"⟩ ∧
    effectiveStatus ⟨some "X", some "FULFILLED"⟩ = some "FULFILLED" ∧
    getOrderFulfillmentStatus ⟨some [⟨some "X", some "FULFILLED"⟩]⟩ =
      "FULFILLED" :=
  ⟨by decide, by decide,
    first_matching_fulfillment_determines_status.1 _
      ⟨some "X", some "FULFILLED"⟩ "FULFILLED" (by decide) (by decide)⟩

/-- C2: `getOrderFulfillmentStatus` always returns exactly one of the
four labels DELIVERED, NOT_DELIVERED, FULFILLED, IN_TRANSIT (being a
total function, it never raises); an order with zero fulfillments returns
NOT_DELIVERED, and an order whose fulfillments all have unrecognized
effective statuses also returns NOT_DELIVERED. -/
theorem classifier_total_and_defaults :
    (∀ o : Order,
        getOrderFulfillmentStatus o = "DELIVERED" ∨
          getOrderFulfillmentStatus o = "NOT_DELIVERED" ∨
          getOrderFulfillmentStatus o = "FULFILLED" ∨
          getOrderFulfillmentStatus o = "IN_TRANSIT") ∧
    (∀ o : Order, o.fulfillments.getD [] = [] →
        getOrderFulfillmentStatus o = "NOT_DELIVERED") ∧
    (∀ o : Order,
        (∀ f ∈ o.fulfillments.getD [], matchesTarget f = false) →
        getOrderFulfillmentStatus o = "NOT_DELIVERED") := by
  refine ⟨status_mem, ?_, ?_⟩
  · intro o h
    rw [getOrderFulfillmentStatus_eq, if_pos (by simp [h])]
  · intro o h
    by_cases h0 : (o.fulfillments.getD []).length = 0
    · rw [getOrderFulfillmentStatus_eq, if_pos h0]
    · rw [getOrderFulfillmentStatus_eq, if_neg h0,
        (primaryScan_eq_none_iff _).mpr h]
      simp [any_fulfilled_eq_false_of_forall _ h]

/-- Witness for C2: the empty order and an all-unrecognized order both
classify as NOT_DELIVERED. -/
theorem classifier_total_and_defaults_witness :
    ((⟨some []⟩ : Order).fulfillments.getD [] = []) ∧
    getOrderFulfillmentStatus ⟨some []⟩ = "NOT_DELIVERED" ∧
    (∀ f ∈ (⟨some [⟨some "WEIRD", some "ON_HOLD"⟩]⟩ :
        Order).fulfillments.getD [], matchesTarget f = false) ∧
    getOrderFulfillmentStatus ⟨some [⟨some "WEIRD", some "ON_HOLD"⟩]⟩ =
      "NOT_DELIVERED" :=
  ⟨rfl, classifier_total_and_defaults.2.1 _ rfl, by decide,
    classifier_total_and_defaults.2.2 _ (by decide)⟩

/-- C3 counterexample: on the very input the claim cites — statuses
[unrecognized, FULFILLED] via the fallback `status` field — the primary
loop already returns (its result is not `none`), so the classification is
not produced by the secondary scan. -/
theorem secondary_scan_not_reached_on_fulfilled_example :
    getOrderFulfillmentStatus
        ⟨some [⟨some "UNKNOWN", none⟩, ⟨some "FULFILLED", none⟩]⟩ =
      "FULFILLED" ∧
    primaryScan [⟨some "UNKNOWN", none⟩, ⟨some "FULFILLED", none⟩] ≠
      none := by
  decide

/-- C3 amended: an order with fulfillment statuses [unrecognized,
FULFILLED] (effective status from the fallback `status` field) classifies
as FULFILLED, but via the primary loop; whenever the primary loop
completes without returning, no fulfillment has effective status
FULFILLED, so the secondary scan cannot fire. -/
theorem fulfilled_example_resolved_by_primary_scan :
    getOrderFulfillmentStatus
        ⟨some [⟨some "UNKNOWN", none⟩, ⟨some "FULFILLED", none⟩]⟩ =
      "FULFILLED" ∧
    primaryScan [⟨some "UNKNOWN", none⟩, ⟨some "FULFILLED", none⟩] =
      some "FULFILLED" ∧
    ∀ fs : List Fulfillment, primaryScan fs = none →
      (fs.any fun f => effectiveStatus f = some "FULFILLED") = false := by
  refine ⟨by decide, by decide, ?_⟩
  intro fs hfs
  exact any_fulfilled_eq_false_of_forall _ ((primaryScan_eq_none_iff _).mp hfs)

/-- Witness for the amended C3: a list the primary loop falls through has
no FULFILLED effective status. -/
theorem fulfilled_example_resolved_by_primary_scan_witness :
    primaryScan [(⟨some "UNKNOWN", none⟩ : Fulfillment)] = none ∧
    (List.any [(⟨some "UNKNOWN", none⟩ : Fulfillment)]
        fun f => effectiveStatus f = some "FULFILLED") = false :=
  ⟨by decide, fulfilled_example_resolved_by_primary_scan.2.2 _ (by decide)⟩

/-- C4: for every fetched order list, the four buckets of `statusCounts`
sum to the number of orders processed, `deliveredCount` is the DELIVERED
bucket, `notDeliveredCount` is the sum of the other three buckets, and
the two derived counts sum back to the total. -/
theorem status_counts_partition_orders : ∀ orders : List Order,
    (countStatuses orders).DELIVERED + (countStatuses orders).NOT_DELIVERED +
        (countStatuses orders).FULFILLED +
        (countStatuses orders).IN_TRANSIT =
      orders.length ∧
    deliveredCount orders = (countStatuses orders).DELIVERED ∧
    notDeliveredCount orders =
      (countStatuses orders).NOT_DELIVERED + (countStatuses orders).FULFILLED +
        (countStatuses orders).IN_TRANSIT ∧
    deliveredCount orders + notDeliveredCount orders = orders.length := by
  intro orders
  have h := countStatuses_total orders
  rw [StatusCounts.total] at h
  refine ⟨h, rfl, rfl, ?_⟩
  rw [deliveredCount, notDeliveredCount]
  omega

/-- C5: for a positive total, the loader percentage `pct` is exactly
round-half-up of count/total×100 at 2 decimal digits, and it is 0 for a
zero total; on statusCounts DELIVERED 3, FULFILLED 2, IN_TRANSIT 1,
NOT_DELIVERED 4 with total 10, the delivered percentage is 30, the
not-delivered percentage (7 of 10) is 70, and the four byStatus
percentages sum to 100. -/
theorem percentages_round_half_up :
    (∀ count total : Nat, 0 < total →
        pct count total = roundHalfUp2 ((count : ℚ) / (total : ℚ) * 100)) ∧
    (∀ count : Nat, pct count 0 = 0) ∧
    pct 3 10 = 30 ∧ pct 7 10 = 70 ∧
    pct 3 10 + pct 2 10 + pct 1 10 + pct 4 10 = 100 := by
  refine ⟨?_, ?_, ?_, ?_, ?_⟩
  · intro c t ht
    rw [pct, if_pos ht, roundHalfUp2, jsRound]
  · intro c
    rw [pct, if_neg (lt_irrefl 0)]
  · rw [pct_eval 3 10 3000 (by norm_num) (by norm_num) (by norm_num)]
    norm_num
  · rw [pct_eval 7 10 7000 (by norm_num) (by norm_num) (by norm_num)]
    norm_num
  · rw [pct_eval 3 10 3000 (by norm_num) (by norm_num) (by norm_num),
      pct_eval 2 10 2000 (by norm_num) (by norm_num) (by norm_num),
      pct_eval 1 10 1000 (by norm_num) (by norm_num) (by norm_num),
      pct_eval 4 10 4000 (by norm_num) (by norm_num) (by norm_num)]
    norm_num

/-- Witness for C5: the general rounding identity applied at count 1,
total 4. -/
theorem percentages_round_half_up_witness :
    (0 : Nat) < 4 ∧ pct 1 4 = roundHalfUp2 ((1 : ℚ) / (4 : ℚ) * 100) :=
  ⟨by decide, percentages_round_half_up.1 1 4 (by decide)⟩

/-- C6: the profile action persists a record (and redirects) exactly when
the trimmed name is non-empty, the trimmed age string is non-empty, and
the age parses to a non-negative integer; otherwise it returns the
collected field errors with the input values and persists nothing.  In
particular an empty name with age 30 yields only the name error, and name
Ann with age -1 yields only the non-negative-age error. -/
theorem profile_validation_gates_persistence :
    (∀ nameField ageField : Option String,
        (∃ nm ag, profileAction nameField ageField = .created nm ag) ↔
          sanitizeText nameField ≠ "" ∧ sanitizeText ageField ≠ "" ∧
            ∃ k : ℤ, parseIntJS (sanitizeText ageField) = some k ∧ 0 ≤ k) ∧
    profileAction (some "") (some "30") =
      .validationFailure ⟨some "Name is required", none⟩ ⟨"", "30"⟩ ∧
    profileAction (some "Ann") (some "-1") =
      .validationFailure ⟨none, some "Age must be a valid non-negative number"⟩
        ⟨"Ann", "-1"⟩ := by
  refine ⟨?_, by decide, by decide⟩
  intro nameField ageField
  constructor
  · rintro ⟨nm, ag, h⟩
    simp only [profileAction] at h
    by_cases hn : sanitizeText nameField = ""
    · simp [hn] at h
    · by_cases hv : sanitizeText ageField = ""
      · simp [hn, hv] at h
      · cases hk : parseIntJS (sanitizeText ageField) with
        | none => simp [hn, hv, hk] at h
        | some k =>
          by_cases hneg : k < 0
          · simp [hn, hv, hk, hneg] at h
          · exact ⟨hn, hv, k, rfl, le_of_not_lt hneg⟩
  · rintro ⟨hn, hv, k, hk, hknn⟩
    refine ⟨sanitizeText nameField, some k, ?_⟩
    simp only [profileAction]
    simp [hn, hv, hk, not_lt.mpr hknn]

/-- Witness for C6: a valid submission (name Ann, age 30) creates a
record. -/
theorem profile_validation_gates_persistence_witness :
    (∃ nm ag, profileAction (some "Ann") (some "30") = .created nm ag) ∧
    profileAction (some "Ann") (some "30") = .created "Ann" (some 30) :=
  ⟨(profile_validation_gates_persistence.1 (some "Ann") (some "30")).mpr
      ⟨by decide, by decide, 30, by decide, by decide⟩,
    by decide⟩

/-- C7: a structured error list containing a message with one of the
permission substrings makes the loader return the access_denied result
with the remediation message instead of raising, and a thrown error whose
message has none of the substrings is re-raised unchanged. -/
theorem permission_errors_intercepted :
    (∀ (json : OrdersJson) (errs : List GraphQLError),
        json.errors = some errs →
        (∃ e ∈ errs, ∃ m, e.message = some m ∧ permissionHint m = true) →
        ordersLoader (.response json) = .accessDenied accessDeniedMessage) ∧
    (∀ m : String, permissionHint m = false →
        ordersLoader (.thrown m) = .rethrown m) := by
  constructor
  · rintro json errs hj ⟨e, he, m, hm, hperm⟩
    have hany : errs.any errorHasPermissionHint = true := by
      rw [List.any_eq_true]
      refine ⟨e, he, ?_⟩
      rw [errorHasPermissionHint, hm]
      exact hperm
    rw [ordersLoader_response, hj]
    simp [hany]
  · intro m hperm
    rw [ordersLoader_thrown, if_neg (by simp [hperm])]

/-- Witness for C7: the spec scenario with message "Access denied for
Order object" yields access_denied, and an unrelated thrown message is
re-raised. -/
theorem permission_errors_intercepted_witness :
    ordersLoader
        (.response ⟨some [⟨some "Access denied for Order object"⟩], none⟩) =
      .accessDenied accessDeniedMessage ∧
    ordersLoader (.thrown "network unreachable") =
      .rethrown "network unreachable" :=
  ⟨permission_errors_intercepted.1 _ [⟨some "Access denied for Order object"⟩]
      rfl
      ⟨⟨some "Access denied for Order object"⟩, by simp,
        "Access denied for Order object", rfl, by decide⟩,
    permission_errors_intercepted.2 _ (by decide)⟩

/-- C8: `truncate` returns the string unchanged when its length is within
the limit, cuts it to the first `length` characters plus an ellipsis when
longer, and maps empty or absent input to the empty string; in particular
truncate of abcdefghij at 5 is abcde followed by the ellipsis, and empty
or absent input (with the default limit) gives the empty string. -/
theorem truncate_spec :
    (∀ (s : String) (len : Nat), s.length ≤ len → truncate (some s) len = s) ∧
    (∀ (s : String) (len : Nat), s ≠ "" → len < s.length →
        truncate (some s) len = String.mk (s.toList.take len) ++ "...") ∧
    (∀ len : Nat, truncate (some "") len = "") ∧
    (∀ len : Nat, truncate none len = "") ∧
    truncate none = "" ∧
    truncate (some "abcdefghij") 5 = "abcde..." ∧
    truncate (some "") 5 = "" := by
  refine ⟨?_, ?_, ?_, fun len => rfl, rfl, by decide, by decide⟩
  · intro s len h
    rw [truncate_some]
    by_cases hs : s = ""
    · rw [if_pos hs, hs]
    · rw [if_neg hs, if_neg (by omega)]
  · intro s len hs hlen
    rw [truncate_some, if_neg hs, if_pos hlen]
  · intro len
    rw [truncate_some, if_pos rfl]

/-- Witness for C8: a short string is untouched and a long one is cut. -/
theorem truncate_spec_witness :
    ("abc".length ≤ 5 ∧ truncate (some "abc") 5 = "abc") ∧
    ("abcdefghij" ≠ "" ∧ 5 < "abcdefghij".length ∧
      truncate (some "abcdefghij") 5 =
        String.mk ("abcdefghij".toList.take 5) ++ "...") :=
  ⟨⟨by decide, truncate_spec.1 "abc" 5 (by decide)⟩,
    ⟨by decide, by decide, truncate_spec.2.1 "abcdefghij" 5 (by decide)
      (by decide)⟩⟩

/-- C9: the secondary FULFILLED scan never changes the result — once the
primary loop completes without returning, no fulfillment has effective
status FULFILLED, so `getOrderFulfillmentStatus` is extensionally equal
to the variant that omits the secondary scan. -/
theorem secondary_scan_never_changes_result : ∀ o : Order,
    getOrderFulfillmentStatus o = getOrderFulfillmentStatusNoRescan o := by
  intro o
  rw [getOrderFulfillmentStatus_eq, getOrderFulfillmentStatusNoRescan_eq]
  by_cases h0 : (o.fulfillments.getD []).length = 0
  · rw [if_pos h0, if_pos h0]
  · rw [if_neg h0, if_neg h0]
    cases hp : primaryScan (o.fulfillments.getD []) with
    | some s => rfl
    | none =>
      have h := (primaryScan_eq_none_iff _).mp hp
      simp [any_fulfilled_eq_false_of_forall _ h]

/-- C10: a structured error list none of whose messages carries a
permission substring neither raises nor produces access_denied: the
loader unconditionally proceeds to aggregate whatever `json.data`
contains (and aggregation always builds the success object, whose error
field is null); with the data field absent it returns zero totalOrders,
all-zero statusCounts and all-zero percentages. -/
theorem non_permission_errors_fall_through :
    (∀ (json : OrdersJson) (errs : List GraphQLError),
        json.errors = some errs →
        (∀ e ∈ errs, ∀ m, e.message = some m → permissionHint m = false) →
        ordersLoader (.response json) = aggregate (json.data.getD [])) ∧
    (∀ orders : List Order, ∃ t sc p, aggregate orders = .success t sc p) ∧
    (∀ (json : OrdersJson) (errs : List GraphQLError),
        json.errors = some errs →
        (∀ e ∈ errs, ∀ m, e.message = some m → permissionHint m = false) →
        json.data = none →
        ordersLoader (.response json) =
          .success 0 ⟨0, 0, 0, 0⟩ ⟨0, 0, ⟨0, 0, 0, 0⟩⟩) := by
  have key : ∀ (json : OrdersJson) (errs : List GraphQLError),
      json.errors = some errs →
      (∀ e ∈ errs, ∀ m, e.message = some m → permissionHint m = false) →
      ordersLoader (.response json) = aggregate (json.data.getD []) := by
    intro json errs hj h
    have hany : errs.any errorHasPermissionHint = false := by
      rw [List.any_eq_false]
      intro e he
      rw [errorHasPermissionHint]
      cases hm : e.message with
      | none => simp
      | some m => simp [h e he m hm]
    rw [ordersLoader_response, hj]
    simp only [hany]
    rw [if_neg (by simp)]
  refine ⟨key, fun orders => ⟨_, _, _, rfl⟩, ?_⟩
  intro json errs hj h hd
  rw [key json errs hj h, hd]
  rfl

/-- Witness for C10: with a lone non-permission error, a data-present
response aggregates its single order and a data-absent response yields
the all-zero success result. -/
theorem non_permission_errors_fall_through_witness :
    ordersLoader
        (.response ⟨some [⟨some "internal failure"⟩],
          some [⟨some [⟨some "DELIVERED", none⟩]⟩]⟩) =
      aggregate [⟨some [⟨some "DELIVERED", none⟩]⟩] ∧
    ordersLoader (.response ⟨some [⟨some "internal failure"⟩], none⟩) =
      .success 0 ⟨0, 0, 0, 0⟩ ⟨0, 0, ⟨0, 0, 0, 0⟩⟩ :=
  ⟨non_permission_errors_fall_through.1 _ [⟨some "internal failure"⟩] rfl
      (by
        intro e he m hm
        simp only [List.mem_singleton] at he
        subst he
        simp only at hm
        cases hm
        decide),
    non_permission_errors_fall_through.2.2 _ [⟨some "internal failure"⟩] rfl
      (by
        intro e he m hm
        simp only [List.mem_singleton] at he
        subst he
        simp only at hm
        cases hm
        decide)
      rfl⟩

end OrderTracking

